import Mathlib

/-!
Verification of the package assembly and part-dispatch engine of
`source/detail/xlsx_producer.cpp`.  The definitions below are a shallow
embedding of the producer: paths are modelled as an absolute flag plus a
component list, the manifest as read-only lookup functions, and each part
write as a pair of an archive path and a structured content value.  The
external `path` and `manifest` classes are not part of the shown source;
their operations are modelled from the specification's data-model section
(parent directory, join, filename, resolve-against-root).
-/

set_option linter.unusedVariables false

namespace XlsxProducer

/-- Sheet visibility state (`xlnt::sheet_state`): visible, hidden, very-hidden. -/
inductive sheet_state where
| visible
| hidden
| very_hidden
deriving DecidableEq

/-- Page-setup metadata of a worksheet.  Only the sheet state field is needed
by the producer code under verification (`get_page_setup().get_sheet_state()`);
all other page-setup fields are omitted. -/
structure page_setup where
  sheet_state : sheet_state
deriving DecidableEq

/-- A worksheet of the document model: title, numeric id, and optional
page-setup metadata (`has_page_setup` is true when the option is populated). -/
structure worksheet where
  title : String
  id : Nat
  page_setup : Option page_setup
deriving DecidableEq

/-- `worksheet::has_page_setup`. -/
def worksheet.has_page_setup (ws : worksheet) : Bool := ws.page_setup.isSome

/-- `worksheet::get_sheet_state`: the page setup's sheet state; a sheet
without page setup reports the default, visible. -/
def worksheet.get_sheet_state (ws : worksheet) : sheet_state :=
  match ws.page_setup with
  | some p => p.sheet_state
  | none => sheet_state.visible

/-- Modelled from the spec: a virtual archive path (`xlnt::path`, not in the
shown source) — an absolute flag (leading slash) and a list of components. -/
structure path where
  absolute : Bool
  components : List String
deriving DecidableEq

/-- Modelled from the spec: `path::parent`, the parent directory (drops the
final component, keeps absoluteness). -/
def path.parent (p : path) : path := ⟨p.absolute, p.components.dropLast⟩

/-- Modelled from the spec: `path::append` on a relative path argument —
plain component concatenation. -/
def path.append_path (p q : path) : path := ⟨p.absolute, p.components ++ q.components⟩

/-- Modelled from the spec: `path::append` on a single-name string argument. -/
def path.append_name (p : path) (s : String) : path := ⟨p.absolute, p.components ++ [s]⟩

/-- Modelled from the spec: `path::filename`, the final component (empty for
the root). -/
def path.filename (p : path) : String := p.components.getLast?.getD ""

/-- Modelled from the spec: `path::is_absolute`. -/
def path.is_absolute (p : path) : Bool := p.absolute

/-- The package root path `path("/")`. -/
def path.root : path := ⟨true, []⟩

/-- Modelled from the spec: `part.resolve(path("/"))` — resolving a part path
against the root makes it absolute. -/
def path.resolve_root (p : path) : path := ⟨true, p.components⟩

/-- Modelled from the spec: `path::string` — the textual rendering, with a
leading slash exactly when the path is absolute. -/
def path.render (p : path) : String :=
  (if p.absolute then "/" else "") ++ String.intercalate "/" p.components

/-- Relationship types (`xlnt::relationship::type`).  The first five are the
package-root dispatch cases; the following fourteen are the workbook-level
dispatch cases; the remainder are types that reach neither dispatch list. -/
inductive relationship_type where
| core_properties
| extended_properties
| custom_properties
| office_document
| thumbnail
| calculation_chain
| chartsheet
| connections
| custom_xml_mappings
| dialogsheet
| external_workbook_references
| metadata
| pivot_table
| shared_string_table
| shared_workbook_revision_headers
| styles
| theme
| volatile_dependencies
| worksheet
| hyperlink
| comments
| drawings
| image
deriving DecidableEq

/-- Relationship target mode: internal targets are dispatched for content
generation, external targets are only recorded in the `.rels` file. -/
inductive target_mode where
| internal
| external
deriving DecidableEq

/-- A typed, identified, directed edge of the part graph
(`xlnt::relationship`). -/
structure relationship where
  id : String
  rel_type : relationship_type
  source : path
  target : path
  mode : target_mode
deriving DecidableEq

/-- Modelled from the spec: the read-only `xlnt::manifest` — per-part
relationship lists, extensions with default content types, and parts with
overridden content types. -/
structure manifest where
  relationships : path → List relationship
  extensions_with_default_types : List String
  default_type : String → String
  parts_with_overriden_types : List path
  override_type : path → String

/-- The document model as read by the producer (`xlnt::workbook` plus the
`workbook_impl` fields the producer touches directly). -/
structure workbook where
  worksheets : List worksheet
  manifest : manifest
  sheet_title_rel_id_map : String → String
  shared_strings : List String
  thumbnail : List Nat
  short_bools : Bool
  application : String
  doc_security : Nat
  scale_crop : Bool

/-- One entry of `[Content_Types].xml`: a Default (extension → type) or an
Override (part name → type) element. -/
inductive ct_entry where
| default_entry (extension content_type : String)
| override_entry (part_name content_type : String)
deriving DecidableEq

/-- Whether a content-type entry is a Default element. -/
def ct_entry.is_default : ct_entry → Bool
| ct_entry.default_entry _ _ => true
| ct_entry.override_entry _ _ => false

/-- Whether a content-type entry is an Override element. -/
def ct_entry.is_override : ct_entry → Bool
| ct_entry.default_entry _ _ => false
| ct_entry.override_entry _ _ => true

/-- The fatal faults the producer can raise (`xlnt::no_visible_worksheets`). -/
inductive werror where
| no_visible_worksheets
deriving DecidableEq

/-- The content of one archive write, structured by which generator produced
it.  `empty_serializer` is a serializer buffer that no generator wrote into
(the dispatch default case, and `write_core_properties`, whose body is
entirely inactive); `xml_root` is a stub generator that writes a single root
element; `raw` is a verbatim byte payload (the thumbnail). -/
inductive pcontent where
| empty_serializer
| xml_root (root_name : String)
| workbook_xml (sheets : List (List (String × String)))
| extended_props (elements : List (String × String))
| rels_xml (rels : List relationship)
| content_types_xml (entries : List ct_entry)
| raw (bytes : List Nat)
deriving DecidableEq

/-- `xlsx_producer::write_content_types` (lines 131-161): one Default entry
per manifest extension with a default type, in manifest order, followed by
one Override entry per manifest part with an overridden type, in manifest
order. -/
def write_content_types (m : manifest) : List ct_entry :=
  m.extensions_with_default_types.map
    (fun e => ct_entry.default_entry e (m.default_type e))
  ++ m.parts_with_overriden_types.map
    (fun p => ct_entry.override_entry p.resolve_root.render (m.override_type p))

/-- The `.rels` side-file path computed by `xlsx_producer::write_relationships`
(lines 1883-1891): the part's parent directory, with its leading slash
stripped when absolute, then `_rels`, then `filename + ".rels"`. -/
def rels_path (part : path) : path :=
  let parent := part.parent
  let parent := if parent.is_absolute then path.mk false parent.components else parent
  (parent.append_name "_rels").append_name (part.filename ++ ".rels")

/-- `xlsx_producer::write_relationships` (lines 1881-1917): one archive write
of a Relationships document at the computed `.rels` path.  Performed
unconditionally by its callers, whether or not the list is empty. -/
def write_relationships (rels : List relationship) (part : path) : path × pcontent :=
  (rels_path part, pcontent.rels_xml rels)

/-- The archive path of a workbook-child part (line 494):
`child_rel.get_source().get_path().parent().append(child_rel.get_target().get_path())`. -/
def archive_path (source_part target : path) : path :=
  source_part.parent.append_path target

/-- The visibility test of `xlsx_producer::write_workbook` (line 252): a
sheet is counted visible when it has no page setup, or its page setup's sheet
state is `visible`. -/
def code_visible (ws : worksheet) : Bool :=
  !ws.has_page_setup || ws.get_sheet_state == sheet_state.visible

/-- `num_visible` of `xlsx_producer::write_workbook` (lines 247-261). -/
def num_visible (wb : workbook) : Nat := wb.worksheets.countP code_visible

/-- The claim's visibility wording: a sheet has page-setup metadata
explicitly marking it hidden or very-hidden. -/
def marked_non_visible (ws : worksheet) : Bool :=
  match ws.page_setup with
  | none => false
  | some p =>
      p.sheet_state == sheet_state.hidden || p.sheet_state == sheet_state.very_hidden

/-- One `sheet` child element of the workbook's `sheets` element
(lines 356-379): attributes `name`, `sheetId`, optionally `state="hidden"`
(only when the sheet has page setup and its sheet state is hidden), and the
relationship id `r:id`. -/
def sheet_entry (wb : workbook) (ws : worksheet) : List (String × String) :=
  [("name", ws.title), ("sheetId", toString ws.id)]
  ++ (if ws.has_page_setup && ws.get_sheet_state == sheet_state.hidden
      then [("state", "hidden")] else [])
  ++ [("r:id", wb.sheet_title_rel_id_map ws.title)]

/-- The children of the `sheets` element (lines 351-380): one `sheet` entry
per worksheet, in workbook iteration order. -/
def sheets_children (wb : workbook) : List (List (String × String)) :=
  wb.worksheets.map (sheet_entry wb)

/-- `xlsx_producer::write_bool` (lines 1870-1878): render a boolean under
the document's `short_bools_` policy. -/
def write_bool (wb : workbook) (b : Bool) : String :=
  if wb.short_bools then (if b then "1" else "0")
  else (if b then "true" else "false")

/-- The active elements written by `xlsx_producer::write_extended_properties`
(lines 163-172): Application, DocSecurity, and ScaleCrop — the latter rendered
with hardcoded `"true"`/`"false"`, not through `write_bool`. -/
def extended_properties_elements (wb : workbook) : List (String × String) :=
  [("Application", wb.application),
   ("DocSecurity", toString wb.doc_security),
   ("ScaleCrop", if wb.scale_crop then "true" else "false")]

/-- The workbook-level dispatch (lines 432-492): what the bound serializer
buffer holds after the switch on a workbook-child relationship's type.  Each
recognized case invokes a stub generator writing one root element; the
default case leaves the buffer empty. -/
def wb_dispatch_content (crel : relationship) : pcontent :=
  match crel.rel_type with
  | relationship_type.calculation_chain => pcontent.xml_root "calcChain"
  | relationship_type.chartsheet => pcontent.xml_root "chartsheet"
  | relationship_type.connections => pcontent.xml_root "connections"
  | relationship_type.custom_xml_mappings => pcontent.xml_root "MapInfo"
  | relationship_type.dialogsheet => pcontent.xml_root "dialogsheet"
  | relationship_type.external_workbook_references => pcontent.xml_root "externalLink"
  | relationship_type.metadata => pcontent.xml_root "metadata"
  | relationship_type.pivot_table => pcontent.xml_root "pivotTableDefinition"
  | relationship_type.shared_string_table => pcontent.xml_root "sst"
  | relationship_type.shared_workbook_revision_headers => pcontent.xml_root "headers"
  | relationship_type.styles => pcontent.xml_root "styleSheet"
  | relationship_type.theme => pcontent.xml_root "a:theme"
  | relationship_type.volatile_dependencies => pcontent.xml_root "volTypes"
  | relationship_type.worksheet => pcontent.xml_root "worksheet"
  | _ => pcontent.empty_serializer

/-- `xlsx_producer::write_workbook` (lines 245-497): count the visible
sheets and throw `no_visible_worksheets` when none; otherwise produce the
workbook document, then write the workbook's own `.rels` file and, for each
workbook relationship, one archive write at the computed archive path with
the dispatched content (the write happens for every child relationship,
recognized or not). -/
def write_workbook (wb : workbook) (rel : relationship) :
    Except werror (pcontent × List (path × pcontent)) :=
  if num_visible wb = 0 then Except.error werror.no_visible_worksheets
  else
    Except.ok (pcontent.workbook_xml (sheets_children wb),
      write_relationships (wb.manifest.relationships rel.target) rel.target
      :: (wb.manifest.relationships rel.target).map
          (fun crel => (archive_path crel.source crel.target, wb_dispatch_content crel)))

/-- One iteration of the root-relationship loop of
`xlsx_producer::populate_archive` (lines 82-121): bind a fresh serializer,
dispatch on the relationship type, and — except for the thumbnail case, which
writes raw bytes directly and sets `write_document = false` — write the
serializer buffer to the archive at the relationship's target path.  The
office-document case performs the workbook's own writes first (they go to the
destination inside `write_workbook`), then flushes the workbook buffer. -/
def process_root_rel (wb : workbook) (rel : relationship) :
    Except werror (List (path × pcontent)) :=
  match rel.rel_type with
  | relationship_type.core_properties =>
      Except.ok [(rel.target, pcontent.empty_serializer)]
  | relationship_type.extended_properties =>
      Except.ok [(rel.target, pcontent.extended_props (extended_properties_elements wb))]
  | relationship_type.custom_properties =>
      Except.ok [(rel.target, pcontent.xml_root "Properties")]
  | relationship_type.office_document =>
      match write_workbook wb rel with
      | Except.error e => Except.error e
      | Except.ok (doc, writes) => Except.ok (writes ++ [(rel.target, doc)])
  | relationship_type.thumbnail =>
      Except.ok [(rel.target, pcontent.raw wb.thumbnail)]
  | _ =>
      Except.ok [(rel.target, pcontent.empty_serializer)]

/-- The full root-relationship loop, left to right, aborting on the first
fatal fault. -/
def process_root_rels (wb : workbook) : List relationship → Except werror (List (path × pcontent))
| [] => Except.ok []
| r :: rs =>
  match process_root_rel wb r with
  | Except.error e => Except.error e
  | Except.ok w =>
    match process_root_rels wb rs with
    | Except.error e => Except.error e
    | Except.ok ws => Except.ok (w ++ ws)

/-- `xlsx_producer::populate_archive` (lines 75-127): write
`[Content_Types].xml`, then the root `.rels` file (unconditionally), then
process every root relationship; a fatal fault aborts the whole assembly and
no archive is produced. -/
def populate_archive (wb : workbook) : Except werror (List (path × pcontent)) :=
  match process_root_rels wb (wb.manifest.relationships path.root) with
  | Except.error e => Except.error e
  | Except.ok ws =>
    Except.ok ((path.mk false ["[Content_Types].xml"],
        pcontent.content_types_xml (write_content_types wb.manifest))
      :: write_relationships (wb.manifest.relationships path.root) path.root
      :: ws)

/-- The XML emitted for one cell, restricted to the shapes the string-cell
branch can produce: `t="s"` with a shared-string index, `t="s"` with no
value (the empty-string, no-match case), `t="inlineStr"` with embedded text,
or `t="str"` with a formula. -/
inductive cell_xml where
| shared (idx : Nat)
| shared_empty
| inline_string (text : String)
| formula_string (f v : String)
deriving DecidableEq

/-- The shared-string linear search of `xlsx_producer::write_worksheet`
(lines 1625-1634): scan from index `i`, returning the first position whose
entry equals the cell value. -/
def find_match_from (v : String) : Nat → List String → Option Nat
| _, [] => none
| i, s :: rest => if s = v then some i else find_match_from v (i + 1) rest

/-- The shared-string lookup starting at index 0. -/
def find_match (shared : List String) (v : String) : Option Nat :=
  find_match_from v 0 shared

/-- The string-typed-cell branch of `xlsx_producer::write_worksheet`
(lines 1614-1654, the cell-serialization block): a cell with a formula is
written as `t="str"`; otherwise the shared-string table is searched for the
value; a match yields `t="s"` with the matching index; no match yields
`t="s"` with no value when the cell value is empty, else an inline string. -/
def write_string_cell (shared : List String) (has_formula : Bool) (formula v : String) : cell_xml :=
  if has_formula then cell_xml.formula_string formula v
  else
    match find_match shared v with
    | some i => cell_xml.shared i
    | none => if v = "" then cell_xml.shared_empty else cell_xml.inline_string v

/-- Modelled from the spec: path normalization — collapse `.` segments and
let `..` consume the preceding component. -/
def norm_step (acc : List String) (c : String) : List String :=
  if c = "." then acc else if c = ".." then acc.dropLast else acc ++ [c]

/-- Modelled from the spec: normalization of a component list. -/
def normalize_components (l : List String) : List String := l.foldl norm_step []

/-- Modelled from the spec: `normalize` on paths. -/
def normalize (p : path) : path := ⟨p.absolute, normalize_components p.components⟩

/-- Modelled from the spec: the side-file formula as the spec words it —
`parent_dir(part.path) / "_rels" / (filename(part.path) + ".rels")`, with no
leading-slash stripping. -/
def spec_rels_path (part : path) : path :=
  (part.parent.append_name "_rels").append_name (part.filename ++ ".rels")

/-- The code's visibility test fails exactly when the sheet is explicitly
marked hidden or very-hidden by page-setup metadata. -/
theorem code_visible_false_iff (ws : worksheet) :
    code_visible ws = false ↔ marked_non_visible ws = true := by
  cases hps : ws.page_setup with
  | none =>
      simp [code_visible, marked_non_visible, worksheet.has_page_setup,
        worksheet.get_sheet_state, hps]
  | some p =>
      cases p with
      | mk st =>
          cases st <;>
            simp [code_visible, marked_non_visible, worksheet.has_page_setup,
              worksheet.get_sheet_state, hps]

/-- `write_workbook` raises the no-visible-worksheets fault exactly when the
visible count is zero. -/
theorem write_workbook_error_iff (wb : workbook) (rel : relationship) :
    write_workbook wb rel = Except.error werror.no_visible_worksheets
      ↔ num_visible wb = 0 := by
  by_cases h0 : num_visible wb = 0 <;> simp [write_workbook, h0]

/-- The visible count is zero exactly when every sheet is explicitly marked
hidden or very-hidden. -/
theorem num_visible_eq_zero_iff (wb : workbook) :
    num_visible wb = 0 ↔ ∀ ws ∈ wb.worksheets, marked_non_visible ws = true := by
  rw [num_visible, List.countP_eq_zero]
  constructor
  · intro h ws hws
    exact (code_visible_false_iff ws).mp (Bool.eq_false_iff.mpr (h ws hws))
  · intro h ws hws
    have := (code_visible_false_iff ws).mpr (h ws hws)
    simp [this]

/-- An empty manifest: no relationships, no content types. -/
def empty_manifest : manifest :=
  { relationships := fun _ => []
    extensions_with_default_types := []
    default_type := fun _ => ""
    parts_with_overriden_types := []
    override_type := fun _ => "" }

/-- A base document model for concrete instantiations. -/
def wb_base : workbook :=
  { worksheets := []
    manifest := empty_manifest
    sheet_title_rel_id_map := fun _ => ""
    shared_strings := []
    thumbnail := []
    short_bools := false
    application := "xlnt"
    doc_security := 0
    scale_crop := false }

/-- A two-sheet workbook whose sheets are both explicitly marked non-visible. -/
def hidden_wb : workbook :=
  { wb_base with
      worksheets :=
        [⟨"Sheet1", 1, some ⟨sheet_state.hidden⟩⟩,
         ⟨"Sheet2", 2, some ⟨sheet_state.very_hidden⟩⟩] }

/-- A workbook with one plain-visible sheet (no page setup at all). -/
def visible_wb : workbook :=
  { wb_base with worksheets := [⟨"Sheet1", 1, none⟩] }

/-- The office-document root relationship targeting the workbook part. -/
def office_rel : relationship :=
  { id := "rId1"
    rel_type := relationship_type.office_document
    source := path.root
    target := ⟨false, ["xl", "workbook.xml"]⟩
    mode := target_mode.internal }

/-- C1: assembly of a workbook with zero visible sheets (a sheet counts as
visible unless page-setup metadata explicitly marks it hidden or very-hidden)
fails fatally with the no-visible-worksheets fault before any workbook bytes
are written, and assembly of a workbook with at least one plain-visible sheet
passes this check and proceeds. -/
theorem C1_no_visible_worksheets_check (wb : workbook) (rel : relationship) :
    (write_workbook wb rel = Except.error werror.no_visible_worksheets
        ↔ ∀ ws ∈ wb.worksheets, marked_non_visible ws = true)
    ∧ ((∃ ws ∈ wb.worksheets, marked_non_visible ws = false)
        → ∃ doc writes, write_workbook wb rel = Except.ok (doc, writes))
    ∧ (rel.rel_type = relationship_type.office_document
        → (∀ ws ∈ wb.worksheets, marked_non_visible ws = true)
        → process_root_rel wb rel = Except.error werror.no_visible_worksheets) := by
  refine ⟨(write_workbook_error_iff wb rel).trans (num_visible_eq_zero_iff wb), ?_, ?_⟩
  · rintro ⟨ws, hws, hvis⟩
    have h0 : num_visible wb ≠ 0 := by
      intro h0
      have hall := (num_visible_eq_zero_iff wb).mp h0
      rw [hall ws hws] at hvis
      exact absurd hvis (by decide)
    refine ⟨pcontent.workbook_xml (sheets_children wb),
      write_relationships (wb.manifest.relationships rel.target) rel.target
        :: (wb.manifest.relationships rel.target).map
            (fun crel => (archive_path crel.source crel.target, wb_dispatch_content crel)), ?_⟩
    simp [write_workbook, h0]
  · intro hod hall
    have herr : write_workbook wb rel = Except.error werror.no_visible_worksheets :=
      (write_workbook_error_iff wb rel).mpr ((num_visible_eq_zero_iff wb).mpr hall)
    simp [process_root_rel, hod, herr]

/-- Witness for C1: the all-hidden two-sheet workbook fails with the
no-visible-worksheets fault, the one-plain-sheet workbook assembles. -/
theorem C1_no_visible_worksheets_check_witness :
    write_workbook hidden_wb office_rel = Except.error werror.no_visible_worksheets
    ∧ (∃ doc writes, write_workbook visible_wb office_rel = Except.ok (doc, writes))
    ∧ process_root_rel hidden_wb office_rel = Except.error werror.no_visible_worksheets :=
  ⟨(C1_no_visible_worksheets_check hidden_wb office_rel).1.mpr (by decide),
   (C1_no_visible_worksheets_check visible_wb office_rel).2.1 (by decide),
   (C1_no_visible_worksheets_check hidden_wb office_rel).2.2 rfl (by decide)⟩

/-- The thumbnail root relationship used as a concrete instance. -/
def thumb_rel : relationship :=
  { id := "rId4"
    rel_type := relationship_type.thumbnail
    source := path.root
    target := ⟨false, ["docProps", "thumbnail.jpeg"]⟩
    mode := target_mode.internal }

/-- A workbook carrying four thumbnail bytes. -/
def thumb_wb : workbook := { wb_base with thumbnail := [137, 80, 78, 71] }

/-- C9: for every root relationship of type thumbnail, the only archive write
produced for that relationship is the raw bytes of the document model's
thumbnail image at the relationship's target path; no XML serializer buffer
is written for it. -/
theorem C9_thumbnail_raw (wb : workbook) (rel : relationship)
    (h : rel.rel_type = relationship_type.thumbnail) :
    process_root_rel wb rel = Except.ok [(rel.target, pcontent.raw wb.thumbnail)] := by
  simp [process_root_rel, h]

/-- Witness for C9 at a concrete workbook and thumbnail relationship. -/
theorem C9_thumbnail_raw_witness :
    process_root_rel thumb_wb thumb_rel
      = Except.ok [(path.mk false ["docProps", "thumbnail.jpeg"],
          pcontent.raw [137, 80, 78, 71])] :=
  C9_thumbnail_raw thumb_wb thumb_rel rfl

/-- A small manifest with one default-typed extension and one overridden part. -/
def ct_manifest : manifest :=
  { relationships := fun _ => []
    extensions_with_default_types := ["xml"]
    default_type := fun _ => "application/xml"
    parts_with_overriden_types := [⟨false, ["xl", "workbook.xml"]⟩]
    override_type := fun _ =>
      "application/vnd.openxmlformats-officedocument.spreadsheetml.sheet.main+xml" }

/-- Helper: in a concatenation whose second block refutes `p` and whose first
block refutes `q`, an index holding a `p` element precedes any index holding a
`q` element. -/
theorem append_block_precedes {α : Type} (A B : List α) (p q : α → Bool)
    (hBp : ∀ b ∈ B, p b = false) (hAq : ∀ a ∈ A, q a = false)
    (i j : Nat) (hi : i < (A ++ B).length) (hj : j < (A ++ B).length)
    (hp : p ((A ++ B).get ⟨i, hi⟩) = true) (hq : q ((A ++ B).get ⟨j, hj⟩) = true) :
    i < j := by
  have hiA : i < A.length := by
    by_contra hge
    push_neg at hge
    have hidx : i - A.length < B.length := by
      rw [List.length_append] at hi
      omega
    have heq : (A ++ B).get ⟨i, hi⟩ = B.get ⟨i - A.length, hidx⟩ := by
      rw [List.get_eq_getElem, List.get_eq_getElem]
      exact List.getElem_append_right hge
    rw [heq, List.get_eq_getElem, hBp _ (List.getElem_mem _)] at hp
    exact absurd hp (by decide)
  have hjB : A.length ≤ j := by
    by_contra hlt
    push_neg at hlt
    have heq : (A ++ B).get ⟨j, hj⟩ = A.get ⟨j, hlt⟩ := by
      rw [List.get_eq_getElem, List.get_eq_getElem]
      exact List.getElem_append_left hlt
    rw [heq, List.get_eq_getElem, hAq _ (List.getElem_mem _)] at hq
    exact absurd hq (by decide)
  omega

/-- C5: in the emitted content types, every Default element precedes every
Override element, and within each of the two groups the elements appear in
manifest iteration order, unsorted. -/
theorem C5_content_types_order (m : manifest) :
    ((write_content_types m).filter ct_entry.is_default
        = m.extensions_with_default_types.map
            (fun e => ct_entry.default_entry e (m.default_type e)))
    ∧ ((write_content_types m).filter ct_entry.is_override
        = m.parts_with_overriden_types.map
            (fun p => ct_entry.override_entry p.resolve_root.render (m.override_type p)))
    ∧ (∀ (i j : Nat) (hi : i < (write_content_types m).length)
          (hj : j < (write_content_types m).length),
        ct_entry.is_default ((write_content_types m).get ⟨i, hi⟩) = true →
        ct_entry.is_override ((write_content_types m).get ⟨j, hj⟩) = true →
        i < j) := by
  have hA : ∀ a ∈ m.extensions_with_default_types.map
      (fun e => ct_entry.default_entry e (m.default_type e)), ct_entry.is_default a = true := by
    intro a ha
    rcases List.mem_map.mp ha with ⟨e, _, rfl⟩
    rfl
  have hB : ∀ a ∈ m.parts_with_overriden_types.map
      (fun p => ct_entry.override_entry p.resolve_root.render (m.override_type p)),
      ct_entry.is_default a = false := by
    intro a ha
    rcases List.mem_map.mp ha with ⟨p, _, rfl⟩
    rfl
  refine ⟨?_, ?_, ?_⟩
  · rw [write_content_types, List.filter_append,
      List.filter_eq_self.mpr hA,
      List.filter_eq_nil_iff.mpr (by intro a ha; simp [hB a ha]),
      List.append_nil]
  · rw [write_content_types, List.filter_append,
      List.filter_eq_nil_iff.mpr (by intro a ha; rcases List.mem_map.mp ha with ⟨e, _, rfl⟩; simp [ct_entry.is_override]),
      List.filter_eq_self.mpr (by intro a ha; rcases List.mem_map.mp ha with ⟨p, _, rfl⟩; rfl),
      List.nil_append]
  · intro i j hi hj hdi hoj
    have hAq : ∀ a ∈ m.extensions_with_default_types.map
        (fun e => ct_entry.default_entry e (m.default_type e)),
        ct_entry.is_override a = false := by
      intro a ha
      rcases List.mem_map.mp ha with ⟨e, _, rfl⟩
      rfl
    exact append_block_precedes _ _ ct_entry.is_default ct_entry.is_override
      hB hAq i j hi hj hdi hoj

/-- Witness for C5 at a concrete one-default, one-override manifest:
the default group, the override group, and index 0 (a Default) preceding
index 1 (an Override). -/
theorem C5_content_types_order_witness :
    ((write_content_types ct_manifest).filter ct_entry.is_default
        = [ct_entry.default_entry "xml" "application/xml"])
    ∧ ((write_content_types ct_manifest).filter ct_entry.is_override
        = [ct_entry.override_entry "/xl/workbook.xml"
            "application/vnd.openxmlformats-officedocument.spreadsheetml.sheet.main+xml"])
    ∧ 0 < 1 :=
  ⟨(C5_content_types_order ct_manifest).1,
   (C5_content_types_order ct_manifest).2.1,
   (C5_content_types_order ct_manifest).2.2 0 1 (by decide) (by decide)
     (by decide) (by decide)⟩

/-- A workbook with one plain sheet, one hidden sheet and one very-hidden
sheet, with distinct relationship ids. -/
def three_state_wb : workbook :=
  { wb_base with
      worksheets :=
        [⟨"Plain", 1, none⟩,
         ⟨"Hidden", 2, some ⟨sheet_state.hidden⟩⟩,
         ⟨"VeryHidden", 3, some ⟨sheet_state.very_hidden⟩⟩]
      sheet_title_rel_id_map := fun t =>
        if t = "Plain" then "rId1" else if t = "Hidden" then "rId2" else "rId3" }

/-- C10: every worksheet produces exactly one sheet child element, in
workbook iteration order, carrying its title as `name`, its id as `sheetId`
and its relationship id as `r:id`; the `state="hidden"` attribute appears
exactly when the worksheet has page setup and its sheet state is hidden, and
a very-hidden sheet carries no state attribute at all. -/
theorem C10_sheet_elements (wb : workbook) :
    (sheets_children wb).length = wb.worksheets.length
    ∧ (∀ (i : Nat) (hi : i < wb.worksheets.length)
          (hi2 : i < (sheets_children wb).length),
        (sheets_children wb).get ⟨i, hi2⟩ = sheet_entry wb (wb.worksheets.get ⟨i, hi⟩))
    ∧ (∀ ws : worksheet,
        ("name", ws.title) ∈ sheet_entry wb ws
        ∧ ("sheetId", toString ws.id) ∈ sheet_entry wb ws
        ∧ ("r:id", wb.sheet_title_rel_id_map ws.title) ∈ sheet_entry wb ws
        ∧ (("state", "hidden") ∈ sheet_entry wb ws
            ↔ (ws.has_page_setup = true ∧ ws.get_sheet_state = sheet_state.hidden))
        ∧ (ws.get_sheet_state = sheet_state.very_hidden →
            ∀ v, ("state", v) ∉ sheet_entry wb ws)) := by
  refine ⟨by simp [sheets_children], ?_, ?_⟩
  · intro i hi hi2
    rw [List.get_eq_getElem, List.get_eq_getElem]
    exact List.getElem_map (sheet_entry wb)
  · intro ws
    by_cases hcond : (ws.has_page_setup && ws.get_sheet_state == sheet_state.hidden) = true
    · have hcond' := hcond
      rw [Bool.and_eq_true, beq_iff_eq] at hcond'
      refine ⟨by simp [sheet_entry], by simp [sheet_entry], by simp [sheet_entry], ?_, ?_⟩
      · simp only [sheet_entry, hcond]
        exact iff_of_true (by simp) hcond'
      · intro hvh
        rw [hvh] at hcond'
        exact absurd hcond'.2 (by decide)
    · have hcond' := hcond
      rw [Bool.and_eq_true, beq_iff_eq] at hcond'
      refine ⟨by simp [sheet_entry, hcond], by simp [sheet_entry, hcond],
        by simp [sheet_entry, hcond], ?_, ?_⟩
      · simp only [sheet_entry, hcond]
        refine iff_of_false ?_ hcond'
        simp +decide
      · intro hvh v
        simp only [sheet_entry, hcond]
        simp +decide

/-- Witness for C10 at the three-sheet workbook, instantiated at index 0 and
at each of the three worksheets. -/
theorem C10_sheet_elements_witness :
    (sheets_children three_state_wb).length = 3
    ∧ (sheets_children three_state_wb).get ⟨0, by decide⟩
        = sheet_entry three_state_wb ⟨"Plain", 1, none⟩
    ∧ (("state", "hidden")
        ∈ sheet_entry three_state_wb ⟨"Hidden", 2, some ⟨sheet_state.hidden⟩⟩)
    ∧ (("state", "hidden")
        ∉ sheet_entry three_state_wb ⟨"VeryHidden", 3, some ⟨sheet_state.very_hidden⟩⟩) :=
  ⟨(C10_sheet_elements three_state_wb).1,
   (C10_sheet_elements three_state_wb).2.1 0 (by decide) (by decide),
   ((C10_sheet_elements three_state_wb).2.2
      ⟨"Hidden", 2, some ⟨sheet_state.hidden⟩⟩).2.2.2.1.mpr ⟨rfl, rfl⟩,
   ((C10_sheet_elements three_state_wb).2.2
      ⟨"VeryHidden", 3, some ⟨sheet_state.very_hidden⟩⟩).2.2.2.2 rfl "hidden"⟩

/-- Folding the normalization step over a dot-free component list appends it
unchanged. -/
theorem norm_dotfree (l acc : List String)
    (h : ∀ c ∈ l, c ≠ "." ∧ c ≠ "..") : l.foldl norm_step acc = acc ++ l := by
  induction l generalizing acc with
  | nil => simp
  | cons c rest ih =>
      have hc := h c (by simp)
      rw [List.foldl_cons]
      have hstep : norm_step acc c = acc ++ [c] := by
        simp [norm_step, hc.1, hc.2]
      rw [hstep, ih (acc ++ [c]) (fun x hx => h x (by simp [hx]))]
      simp

/-- C2 counterexample, refuting both halves of the claim at explicit concrete
inputs.  Side-file half: for the workbook part `/xl/workbook.xml`, the code's
relationship side-file path is `xl/_rels/workbook.xml.rels` (relative — the
producer strips the parent directory's leading slash), which differs from the
claimed `parent_dir(part)/_rels/(filename + ".rels")` value
`/xl/_rels/workbook.xml.rels`.  Archive-path half: for the dotted target
`../docProps/extra.xml` from `/xl/workbook.xml`, the code's archive path is
the plain join `/xl/../docProps/extra.xml`, not its normalization
`/docProps/extra.xml`, so the path does not equal the claimed normalization
of parent joined with target. -/
theorem C2_rels_path_counterexample :
    rels_path (path.mk true ["xl", "workbook.xml"])
        = path.mk false ["xl", "_rels", "workbook.xml.rels"]
    ∧ spec_rels_path (path.mk true ["xl", "workbook.xml"])
        = path.mk true ["xl", "_rels", "workbook.xml.rels"]
    ∧ rels_path (path.mk true ["xl", "workbook.xml"])
        ≠ spec_rels_path (path.mk true ["xl", "workbook.xml"])
    ∧ archive_path (path.mk true ["xl", "workbook.xml"])
          (path.mk false ["..", "docProps", "extra.xml"])
        = path.mk true ["xl", "..", "docProps", "extra.xml"]
    ∧ normalize ((path.mk true ["xl", "workbook.xml"]).parent.append_path
          (path.mk false ["..", "docProps", "extra.xml"]))
        = path.mk true ["docProps", "extra.xml"]
    ∧ archive_path (path.mk true ["xl", "workbook.xml"])
          (path.mk false ["..", "docProps", "extra.xml"])
        ≠ normalize ((path.mk true ["xl", "workbook.xml"]).parent.append_path
            (path.mk false ["..", "docProps", "extra.xml"])) :=
  ⟨rfl, rfl, by decide, rfl, rfl, by decide⟩

/-- C2 (amended): the producer computes the archive path as the plain join of
the source part's parent directory with the relative target, performing no
dot-segment normalization (the counterexample separates the two at a dotted
target), so the archive path equals the claimed normalization exactly on the
dot-segment-free paths restricted to here; the relationship side-file path
equals the spec formula with the parent directory's leading slash stripped
(it is always a relative path); concretely, source part `/xl/workbook.xml`
with target `worksheets/sheet1.xml` yields archive path
`/xl/worksheets/sheet1.xml` and workbook side-file
`xl/_rels/workbook.xml.rels`. -/
theorem C2_path_arithmetic_amended (src tgt part : path)
    (habs : tgt.absolute = false)
    (hsrc : ∀ c ∈ src.components, c ≠ "." ∧ c ≠ "..")
    (htgt : ∀ c ∈ tgt.components, c ≠ "." ∧ c ≠ "..") :
    archive_path src tgt = normalize (src.parent.append_path tgt)
    ∧ rels_path part = path.mk false (spec_rels_path part).components
    ∧ archive_path (path.mk true ["xl", "workbook.xml"])
        (path.mk false ["worksheets", "sheet1.xml"])
        = path.mk true ["xl", "worksheets", "sheet1.xml"]
    ∧ rels_path (path.mk true ["xl", "workbook.xml"])
        = path.mk false ["xl", "_rels", "workbook.xml.rels"] := by
  refine ⟨?_, ?_, rfl, rfl⟩
  · have hcomb : ∀ c ∈ src.components.dropLast ++ tgt.components,
        c ≠ "." ∧ c ≠ ".." := by
      intro c hc
      rcases List.mem_append.mp hc with hc | hc
      · exact hsrc c (List.Sublist.mem hc (List.dropLast_sublist _))
      · exact htgt c hc
    show path.mk src.absolute (src.components.dropLast ++ tgt.components)
      = path.mk src.absolute
          ((src.components.dropLast ++ tgt.components).foldl norm_step [])
    rw [norm_dotfree _ [] hcomb, List.nil_append]
  · unfold rels_path spec_rels_path path.parent path.append_name path.is_absolute
    by_cases hp : part.absolute <;> simp [hp]

/-- Witness for C2 (amended) at the concrete workbook part and worksheet
target of the claim. -/
theorem C2_path_arithmetic_amended_witness :
    archive_path (path.mk true ["xl", "workbook.xml"])
        (path.mk false ["worksheets", "sheet1.xml"])
        = path.mk true ["xl", "worksheets", "sheet1.xml"]
    ∧ rels_path (path.mk true ["xl", "workbook.xml"])
        = path.mk false ["xl", "_rels", "workbook.xml.rels"] :=
  ⟨(C2_path_arithmetic_amended (path.mk true ["xl", "workbook.xml"])
      (path.mk false ["worksheets", "sheet1.xml"])
      (path.mk true ["xl", "workbook.xml"]) rfl (by decide) (by decide)).2.2.1,
   (C2_path_arithmetic_amended (path.mk true ["xl", "workbook.xml"])
      (path.mk false ["worksheets", "sheet1.xml"])
      (path.mk true ["xl", "workbook.xml"]) rfl (by decide) (by decide)).2.2.2⟩

/-- A root relationship of a type outside the root dispatch cases. -/
def unknown_root_rel : relationship :=
  { id := "rId5"
    rel_type := relationship_type.hyperlink
    source := path.root
    target := ⟨false, ["docProps", "extra.xml"]⟩
    mode := target_mode.internal }

/-- A workbook-level relationship of a type outside the workbook dispatch
cases. -/
def unknown_wb_rel : relationship :=
  { id := "rId9"
    rel_type := relationship_type.image
    source := ⟨true, ["xl", "workbook.xml"]⟩
    target := ⟨false, ["media", "image1.png"]⟩
    mode := target_mode.internal }

/-- The relationship types recognized by the package-root dispatch
(lines 90-115). -/
def root_recognized : List relationship_type :=
  [relationship_type.core_properties, relationship_type.extended_properties,
   relationship_type.custom_properties, relationship_type.office_document,
   relationship_type.thumbnail]

/-- The relationship types recognized by the workbook-level dispatch
(lines 432-492). -/
def wb_recognized : List relationship_type :=
  [relationship_type.calculation_chain, relationship_type.chartsheet,
   relationship_type.connections, relationship_type.custom_xml_mappings,
   relationship_type.dialogsheet, relationship_type.external_workbook_references,
   relationship_type.metadata, relationship_type.pivot_table,
   relationship_type.shared_string_table,
   relationship_type.shared_workbook_revision_headers, relationship_type.styles,
   relationship_type.theme, relationship_type.volatile_dependencies,
   relationship_type.worksheet]

/-- C3 counterexample: a root relationship of unrecognized type (hyperlink)
raises no error, but a part *is* written to the archive for its target —
an empty one — contradicting the claim that no part is written. -/
theorem C3_unknown_type_counterexample :
    process_root_rel wb_base unknown_root_rel
      = Except.ok [(path.mk false ["docProps", "extra.xml"], pcontent.empty_serializer)]
    ∧ process_root_rel wb_base unknown_root_rel ≠ Except.ok [] := by
  refine ⟨rfl, ?_⟩
  intro h
  rw [show process_root_rel wb_base unknown_root_rel
      = Except.ok [(path.mk false ["docProps", "extra.xml"], pcontent.empty_serializer)]
    from rfl] at h
  simp at h

/-- C3 (amended): for every relationship whose type is not one of the
recognized dispatch cases — at the package-root level and at the workbook
level — no generator is invoked and no error is raised, but an empty
(zero-byte) part is still written to the archive at the relationship's
target path. -/
theorem C3_unknown_type_amended (wb : workbook) (rel crel : relationship)
    (h1 : rel.rel_type ∉ root_recognized) (h2 : crel.rel_type ∉ wb_recognized) :
    process_root_rel wb rel = Except.ok [(rel.target, pcontent.empty_serializer)]
    ∧ wb_dispatch_content crel = pcontent.empty_serializer := by
  constructor
  · cases hrt : rel.rel_type <;>
      first
        | exact absurd (by rw [hrt]; decide) h1
        | simp [process_root_rel, hrt]
  · cases hrt : crel.rel_type <;>
      first
        | exact absurd (by rw [hrt]; decide) h2
        | simp [wb_dispatch_content, hrt]

/-- Witness for C3 (amended) at a hyperlink-typed root relationship and an
image-typed workbook relationship. -/
theorem C3_unknown_type_amended_witness :
    process_root_rel wb_base unknown_root_rel
      = Except.ok [(unknown_root_rel.target, pcontent.empty_serializer)]
    ∧ wb_dispatch_content unknown_wb_rel = pcontent.empty_serializer :=
  C3_unknown_type_amended wb_base unknown_root_rel unknown_wb_rel
    (by decide) (by decide)

/-- C4 counterexample: a string cell whose value is the empty string and has
no match in the shared-string table is emitted as `t="s"` with no value, not
as an inline string, contradicting the claim that every unmatched value
falls back to `t="inlineStr"`. -/
theorem C4_shared_string_counterexample :
    find_match ["a"] "" = none
    ∧ write_string_cell ["a"] false "" "" = cell_xml.shared_empty
    ∧ cell_xml.shared_empty ≠ cell_xml.inline_string "" :=
  ⟨rfl, rfl, by decide⟩

/-- The linear shared-string scan starting at offset `i` returns an index at
least `i` whose entry equals the sought value. -/
theorem find_match_from_sound (v : String) (l : List String) :
    ∀ (i j : Nat), find_match_from v i l = some j →
      i ≤ j ∧ l.get? (j - i) = some v := by
  induction l with
  | nil =>
      intro i j h
      simp [find_match_from] at h
  | cons s rest ih =>
      intro i j h
      rw [find_match_from] at h
      by_cases hs : s = v
      · rw [if_pos hs] at h
        injection h with h
        subst h
        exact ⟨le_refl i, by simp [hs]⟩
      · rw [if_neg hs] at h
        obtain ⟨hle, hget⟩ := ih (i + 1) j h
        refine ⟨by omega, ?_⟩
        have hji : j - i = (j - (i + 1)) + 1 := by omega
        rw [hji]
        simpa using hget

/-- C4 (amended): a string-typed cell without a formula whose value equals
some entry of the shared-string table is emitted with `t="s"` and the first
matching entry's numeric index; if no entry matches and the value is
non-empty it is emitted as an inline string, and if no entry matches and the
value is empty it is emitted as `t="s"` with no value; no case raises an
error. -/
theorem C4_shared_string_fallback_amended (shared : List String) (f v : String) :
    (∀ i, find_match shared v = some i →
        write_string_cell shared false f v = cell_xml.shared i
        ∧ shared.get? i = some v)
    ∧ (find_match shared v = none → v ≠ "" →
        write_string_cell shared false f v = cell_xml.inline_string v)
    ∧ (find_match shared v = none → v = "" →
        write_string_cell shared false f v = cell_xml.shared_empty) := by
  refine ⟨?_, ?_, ?_⟩
  · intro i hfm
    refine ⟨by simp [write_string_cell, hfm], ?_⟩
    have h := (find_match_from_sound v shared 0 i) hfm
    simpa using h.2
  · intro hfm hne
    simp [write_string_cell, hfm, hne]
  · intro hfm he
    subst he
    simp [write_string_cell, hfm]

/-- Witness for C4 (amended): a matched value is emitted as the shared index
1 (whose table entry is the value), an unmatched non-empty value as an
inline string. -/
theorem C4_shared_string_fallback_amended_witness :
    (write_string_cell ["alpha", "beta"] false "" "beta" = cell_xml.shared 1
      ∧ ["alpha", "beta"].get? 1 = some "beta")
    ∧ write_string_cell ["alpha", "beta"] false "" "gamma"
        = cell_xml.inline_string "gamma" :=
  ⟨(C4_shared_string_fallback_amended ["alpha", "beta"] "" "beta").1 1 rfl,
   (C4_shared_string_fallback_amended ["alpha", "beta"] "" "gamma").2.1 rfl
     (by decide)⟩

/-- C6 counterexample: a workbook whose root owns zero relationships still
gets a root `.rels` file in the archive (holding an empty Relationships
element), contradicting the claim that a part with an empty relationship
list has no `.rels` file. -/
theorem C6_rels_counterexample :
    wb_base.manifest.relationships path.root = []
    ∧ populate_archive wb_base
        = Except.ok
            [(path.mk false ["[Content_Types].xml"], pcontent.content_types_xml []),
             (path.mk false ["_rels", ".rels"], pcontent.rels_xml [])] :=
  ⟨rfl, rfl⟩

/-- The workbook-level dispatch never produces a Relationships document. -/
theorem wb_dispatch_content_ne_rels (crel : relationship) (r : List relationship) :
    wb_dispatch_content crel ≠ pcontent.rels_xml r := by
  cases h : crel.rel_type <;> simp [wb_dispatch_content, h]

/-- Among the archive writes produced for one root relationship, the only
possible Relationships document is the workbook part's own `.rels` file,
produced by the office-document branch. -/
theorem process_root_rel_rels_only (wb : workbook) (rel : relationship)
    (w : List (path × pcontent)) (h : process_root_rel wb rel = Except.ok w) :
    ∀ pr ∈ w, (∃ r, pr.2 = pcontent.rels_xml r) →
      rel.rel_type = relationship_type.office_document
      ∧ pr = write_relationships (wb.manifest.relationships rel.target) rel.target := by
  intro pr hpr hrels
  obtain ⟨r, hr⟩ := hrels
  cases ht : rel.rel_type
  case office_document =>
    simp only [process_root_rel, ht] at h
    cases hww : write_workbook wb rel with
    | error e =>
        rw [hww] at h
        simp at h
    | ok dw =>
        obtain ⟨doc, writes⟩ := dw
        rw [hww] at h
        simp only [Except.ok.injEq] at h
        subst h
        unfold write_workbook at hww
        by_cases h0 : num_visible wb = 0
        · rw [if_pos h0] at hww
          simp at hww
        · rw [if_neg h0] at hww
          simp only [Except.ok.injEq, Prod.mk.injEq] at hww
          obtain ⟨hdoc, hwrites⟩ := hww
          rw [← hwrites] at hpr
          simp only [List.mem_append, List.mem_cons, List.mem_singleton] at hpr
          rcases hpr with (rfl | hmap) | rfl | hnil
          · exact ⟨rfl, rfl⟩
          · exfalso
            rcases List.mem_map.mp hmap with ⟨crel, _, hceq⟩
            rw [← hceq] at hr
            exact wb_dispatch_content_ne_rels crel r hr
          · exfalso
            rw [← hdoc] at hr
            simp at hr
          · exact absurd hnil (List.not_mem_nil pr)
  all_goals
    simp only [process_root_rel, ht, Except.ok.injEq] at h
  all_goals
    subst h
  all_goals
    simp only [List.mem_singleton] at hpr
  all_goals
    subst hpr
  all_goals
    simp at hr

/-- Across the whole root-relationship loop, every Relationships document
among the produced writes is the workbook `.rels` file of some
office-document root relationship. -/
theorem process_root_rels_rels_only (wb : workbook) :
    ∀ (rels : List relationship) (out : List (path × pcontent)),
      process_root_rels wb rels = Except.ok out →
      ∀ pr ∈ out, (∃ r, pr.2 = pcontent.rels_xml r) →
        ∃ rel ∈ rels, rel.rel_type = relationship_type.office_document
          ∧ pr = write_relationships (wb.manifest.relationships rel.target) rel.target := by
  intro rels
  induction rels with
  | nil =>
      intro out h pr hpr hrels
      simp only [process_root_rels, Except.ok.injEq] at h
      subst h
      simp at hpr
  | cons rel rest ih =>
      intro out h pr hpr hrels
      simp only [process_root_rels] at h
      cases h1 : process_root_rel wb rel with
      | error e =>
          rw [h1] at h
          simp at h
      | ok w =>
          rw [h1] at h
          cases h2 : process_root_rels wb rest with
          | error e =>
              rw [h2] at h
              simp at h
          | ok ws =>
              rw [h2] at h
              simp only [Except.ok.injEq] at h
              subst h
              rcases List.mem_append.mp hpr with hw | hws
              · obtain ⟨ht, hpr2⟩ := process_root_rel_rels_only wb rel w h1 pr hw hrels
                exact ⟨rel, by simp, ht, hpr2⟩
              · obtain ⟨rel2, hmem, ht, hpr2⟩ := ih ws h2 pr hws hrels
                exact ⟨rel2, by simp [hmem], ht, hpr2⟩

/-- C6 (amended): the producer writes a `.rels` side-file unconditionally for
the package root (always the second archive write) and for the workbook part
(always the first write performed by the workbook generator), whether or not
the owning part's relationship list is empty; and these are the only `.rels`
files — every Relationships document among the archive writes is the root's
or the `.rels` file of an office-document (workbook) relationship's target
part, so no other part receives a `.rels` file. -/
theorem C6_rels_amended (wb : workbook) (rel : relationship) :
    (∀ out, populate_archive wb = Except.ok out →
        out.get? 1
          = some (write_relationships (wb.manifest.relationships path.root) path.root))
    ∧ (∀ doc writes, write_workbook wb rel = Except.ok (doc, writes) →
        writes.head?
          = some (write_relationships (wb.manifest.relationships rel.target) rel.target))
    ∧ (∀ out, populate_archive wb = Except.ok out →
        ∀ pr ∈ out, (∃ r, pr.2 = pcontent.rels_xml r) →
          pr = write_relationships (wb.manifest.relationships path.root) path.root
          ∨ ∃ rel2 ∈ wb.manifest.relationships path.root,
              rel2.rel_type = relationship_type.office_document
              ∧ pr = write_relationships
                  (wb.manifest.relationships rel2.target) rel2.target) := by
  refine ⟨?_, ?_, ?_⟩
  · intro out hout
    unfold populate_archive at hout
    cases hpr : process_root_rels wb (wb.manifest.relationships path.root) with
    | error e =>
        rw [hpr] at hout
        simp at hout
    | ok ws =>
        rw [hpr] at hout
        injection hout with h
        rw [← h]
        rfl
  · intro doc writes hww
    unfold write_workbook at hww
    by_cases h0 : num_visible wb = 0
    · rw [if_pos h0] at hww
      simp at hww
    · rw [if_neg h0] at hww
      injection hww with h
      injection h with h1 h2
      rw [← h2]
      rfl
  · intro out hout pr hpr hrels
    unfold populate_archive at hout
    cases hpr2 : process_root_rels wb (wb.manifest.relationships path.root) with
    | error e =>
        rw [hpr2] at hout
        simp at hout
    | ok ws =>
        rw [hpr2] at hout
        simp only [Except.ok.injEq] at hout
        subst hout
        simp only [List.mem_cons] at hpr
        rcases hpr with rfl | rfl | hmem
        · exfalso
          obtain ⟨r, hr⟩ := hrels
          simp at hr
        · exact Or.inl rfl
        · obtain ⟨rel2, hmem2, ht2, hpr2⟩ :=
            process_root_rels_rels_only wb _ ws hpr2 pr hmem hrels
          exact Or.inr ⟨rel2, hmem2, ht2, hpr2⟩

/-- Witness for C6 (amended): the empty-manifest workbook's second archive
write is the root `.rels` file even though the root owns zero relationships;
the one-visible-sheet workbook's first workbook-generator write is the
workbook `.rels` file even though the workbook part owns zero relationships;
and the one Relationships document in the empty-manifest output is the
root's. -/
theorem C6_rels_amended_witness :
    [(path.mk false ["[Content_Types].xml"], pcontent.content_types_xml []),
     (path.mk false ["_rels", ".rels"], pcontent.rels_xml [])].get? 1
      = some (write_relationships (wb_base.manifest.relationships path.root) path.root)
    ∧ [write_relationships ([] : List relationship) office_rel.target].head?
      = some (write_relationships
          (visible_wb.manifest.relationships office_rel.target) office_rel.target)
    ∧ ((path.mk false ["_rels", ".rels"], pcontent.rels_xml ([] : List relationship))
          = write_relationships (wb_base.manifest.relationships path.root) path.root
        ∨ ∃ rel2 ∈ wb_base.manifest.relationships path.root,
            rel2.rel_type = relationship_type.office_document
            ∧ (path.mk false ["_rels", ".rels"],
                pcontent.rels_xml ([] : List relationship))
              = write_relationships
                  (wb_base.manifest.relationships rel2.target) rel2.target) :=
  ⟨(C6_rels_amended wb_base office_rel).1
      [(path.mk false ["[Content_Types].xml"], pcontent.content_types_xml []),
       (path.mk false ["_rels", ".rels"], pcontent.rels_xml [])] rfl,
   (C6_rels_amended visible_wb office_rel).2.1
      (pcontent.workbook_xml (sheets_children visible_wb))
      [write_relationships ([] : List relationship) office_rel.target] rfl,
   (C6_rels_amended wb_base office_rel).2.2
      [(path.mk false ["[Content_Types].xml"], pcontent.content_types_xml []),
       (path.mk false ["_rels", ".rels"], pcontent.rels_xml [])] rfl
      (path.mk false ["_rels", ".rels"], pcontent.rels_xml ([] : List relationship))
      (by simp) ⟨[], rfl⟩⟩

/-- A workbook that selects the short ("1"/"0") boolean policy and has
scale-crop set. -/
def mixed_wb : workbook := { wb_base with short_bools := true, scale_crop := true }

/-- The extended-properties root relationship used as a concrete instance. -/
def ext_props_rel : relationship :=
  { id := "rId3"
    rel_type := relationship_type.extended_properties
    source := path.root
    target := ⟨false, ["docProps", "app.xml"]⟩
    mode := target_mode.internal }

/-- C7 counterexample: a document that selects the short boolean policy
produces an extended-properties part whose ScaleCrop boolean attribute is
rendered "true", while the document-selected policy (`write_bool`) renders
true as "1" — so this boolean attribute value in the produced package is not
rendered under the document-selected policy, refuting the claim at a concrete
document. -/
theorem C7_bool_policy_counterexample :
    process_root_rel mixed_wb ext_props_rel
      = Except.ok [(ext_props_rel.target,
          pcontent.extended_props
            [("Application", "xlnt"), ("DocSecurity", "0"), ("ScaleCrop", "true")])]
    ∧ mixed_wb.short_bools = true
    ∧ write_bool mixed_wb true = "1"
    ∧ ("true" : String) ≠ "1" :=
  ⟨rfl, rfl, rfl, by decide⟩

/-- C7 (amended): values rendered through `write_bool` do follow one global,
document-selected policy — every `write_bool` output lies in the selected
policy's pair — but the one boolean attribute the active producer emits, the
ScaleCrop attribute written into the extended-properties part, bypasses
`write_bool` and is always rendered "true"/"false", so under the short policy
the package's boolean attribute value is not rendered under the
document-selected policy. -/
theorem C7_bool_policy_amended (wb : workbook) (rel : relationship)
    (hrel : rel.rel_type = relationship_type.extended_properties) :
    (∀ b, write_bool wb b
        ∈ (if wb.short_bools then ["1", "0"] else ["true", "false"]))
    ∧ process_root_rel wb rel
        = Except.ok [(rel.target,
            pcontent.extended_props (extended_properties_elements wb))]
    ∧ ("ScaleCrop", if wb.scale_crop then "true" else "false")
        ∈ extended_properties_elements wb
    ∧ (wb.short_bools = true →
        (if wb.scale_crop then "true" else "false") ∉ (["1", "0"] : List String)) := by
  refine ⟨?_, ?_, ?_, ?_⟩
  · intro b
    by_cases hs : wb.short_bools <;> cases b <;> simp [write_bool, hs]
  · simp [process_root_rel, hrel]
  · simp [extended_properties_elements]
  · intro hshort
    by_cases hsc : wb.scale_crop <;> simp [hsc]

/-- Witness for C7 (amended) at the short-policy workbook and the concrete
extended-properties relationship. -/
theorem C7_bool_policy_amended_witness :
    write_bool mixed_wb true ∈ (["1", "0"] : List String)
    ∧ process_root_rel mixed_wb ext_props_rel
        = Except.ok [(ext_props_rel.target,
            pcontent.extended_props (extended_properties_elements mixed_wb))]
    ∧ ("ScaleCrop", if mixed_wb.scale_crop then "true" else "false")
        ∈ extended_properties_elements mixed_wb
    ∧ (if mixed_wb.scale_crop then "true" else "false") ∉ (["1", "0"] : List String) :=
  ⟨(C7_bool_policy_amended mixed_wb ext_props_rel rfl).1 true,
   (C7_bool_policy_amended mixed_wb ext_props_rel rfl).2.1,
   (C7_bool_policy_amended mixed_wb ext_props_rel rfl).2.2.1,
   (C7_bool_policy_amended mixed_wb ext_props_rel rfl).2.2.2 rfl⟩

end XlsxProducer
